import Mathlib

/-!
A shallow embedding, in Lean 4, of the detection pipeline of the
react-handpose repository (src/App.tsx).  The app streams a camera or a
video file into pretrained landmark detectors (hand, face, multi-person
pose) and overlays the detected keypoints on a canvas.

Modelling conventions:
  * JS numbers are embedded as `ℚ` (the code only adds, subtracts,
    multiplies, divides and compares coordinates; the decimal literals
    0.3, 0.4 and 0.35/0.65 are exact in `ℚ`).  Division by zero yields 0
    in `ℚ` where JS would yield Infinity/NaN; no claim depends on a zero
    denominator.
  * Optional JS values (`kp.score`, `kp.name`, a possibly out-of-range
    index access) are embedded as `Option`.
  * Canvas mutation is embedded as a list of draw operations
    (`CanvasOp`): `clearRect` over the full surface (the code always
    clears the whole canvas, freshly sized to the video) and the marks
    painted after it.  Context-attribute assignments (`fillStyle`,
    `font`, `lineWidth`, ...) are folded into the mark that uses them.
  * The 100 ms `setInterval` tick of each detector hook is embedded as a
    guard function over the environment the tick reads
    (model loaded, video/canvas refs, readiness, decoded dimensions),
    plus an explicit count of unresolved `estimate*` calls.
-/

namespace ReactHandpose

/-- A painted mark on the canvas: a filled arc (dot), a stroked segment
(line), a filled text or a stroked (outlined) text, each with the context
attributes in force when the source paints it. -/
inductive Mark where
  | dot (x y r : ℚ) (color : String)
  | line (x1 y1 x2 y2 : ℚ) (color : String) (width : ℚ)
  | text (s : String) (x y : ℚ) (color : String) (font : String)
  | outlineText (s : String) (x y : ℚ) (color : String) (width : ℚ) (font : String)
  deriving DecidableEq, Repr

/-- One canvas-context operation: `clearRect(0, 0, w, h)` over the full
surface, or painting one mark. -/
inductive CanvasOp where
  | clear (w h : ℚ)
  | mark (m : Mark)
  deriving DecidableEq, Repr

/-- Canvas contents: the marks painted since the last full clear, in
paint order. -/
def applyOp (s : List Mark) : CanvasOp → List Mark
  | .clear _ _ => []
  | .mark m => s ++ [m]

def applyOps (ops : List CanvasOp) (s : List Mark) : List Mark :=
  ops.foldl applyOp s

/-- The environment one detection tick reads: whether the model finished
loading, whether the hook holds live video/canvas elements, the
`isVideoReady` flag, and the video's decoded dimensions. -/
structure TickEnv where
  modelLoaded : Bool
  videoPresent : Bool
  canvasPresent : Bool
  isVideoReady : Bool
  videoWidth : Nat
  videoHeight : Nat
  deriving DecidableEq, Repr

/-- What one tick of a detect function does before its `await`: whether it
invokes the model's estimate call, and the dimensions it resized the
canvas to (`none` when it left the canvas untouched). -/
structure TickOutcome where
  detectCalled : Bool
  resizedTo : Option (Nat × Nat)
  deriving DecidableEq, Repr

/-- App.tsx lines 212-230 (`useHandpose`): return unless the model, the
video ref and `isVideoReady` are all present; skip when a decoded
dimension is 0; only then resize the canvas (when the canvas ref is
live) and call `model.estimateHands`. -/
def handTickOutcome (e : TickEnv) : TickOutcome :=
  if !e.modelLoaded then ⟨false, none⟩
  else if !e.videoPresent then ⟨false, none⟩
  else if !e.isVideoReady then ⟨false, none⟩
  else if e.videoWidth == 0 || e.videoHeight == 0 then ⟨false, none⟩
  else ⟨true, if e.canvasPresent then some (e.videoWidth, e.videoHeight) else none⟩

/-- App.tsx lines 540-557 (`useFaceDetection`): the guards in source
order (model, video ref, canvas ref, readiness, dimensions), then the
unconditional canvas resize and `model.estimateFaces`. -/
def faceTickOutcome (e : TickEnv) : TickOutcome :=
  if !e.modelLoaded then ⟨false, none⟩
  else if !e.videoPresent then ⟨false, none⟩
  else if !e.canvasPresent then ⟨false, none⟩
  else if !e.isVideoReady then ⟨false, none⟩
  else if e.videoWidth == 0 || e.videoHeight == 0 then ⟨false, none⟩
  else ⟨true, some (e.videoWidth, e.videoHeight)⟩

/-- App.tsx lines 778-795 (`usePoseDetection`): same guard sequence as the
face hook, ending in `model.estimatePoses`. -/
def poseTickOutcome (e : TickEnv) : TickOutcome :=
  if !e.modelLoaded then ⟨false, none⟩
  else if !e.videoPresent then ⟨false, none⟩
  else if !e.canvasPresent then ⟨false, none⟩
  else if !e.isVideoReady then ⟨false, none⟩
  else if e.videoWidth == 0 || e.videoHeight == 0 then ⟨false, none⟩
  else ⟨true, some (e.videoWidth, e.videoHeight)⟩

/-- The three detector variants (the app's tabs). -/
inductive Variant where
  | hand
  | face
  | pose
  deriving DecidableEq, Repr

def tickOutcome : Variant → TickEnv → TickOutcome
  | .hand => handTickOutcome
  | .face => faceTickOutcome
  | .pose => poseTickOutcome

/-- Whether a tick of the given variant issues a detect/estimate call. -/
def tickIssuesDetect (v : Variant) (e : TickEnv) : Bool :=
  (tickOutcome v e).detectCalled

/-- One firing of the 100 ms `setInterval` timer, tracking the number of
estimate calls issued and not yet resolved.  The source's `detect`
functions read only the environment; none of them consults whether a
previous call is still pending, so the count is incremented whenever the
guards pass. -/
def tickStep (v : Variant) (e : TickEnv) (inFlight : Nat) : Nat :=
  if tickIssuesDetect v e then inFlight + 1 else inFlight

/-- An environment in which every guard passes: model loaded, live video
and canvas, video ready, 640 x 480 decoded frame. -/
def goodEnv : TickEnv :=
  { modelLoaded := true, videoPresent := true, canvasPresent := true,
    isVideoReady := true, videoWidth := 640, videoHeight := 480 }

end ReactHandpose

namespace ReactHandpose

/-! Pose detection (App.tsx lines 710-861). -/

structure PoseKeypoint where
  x : ℚ
  y : ℚ
  score : Option ℚ
  name : Option String
  deriving DecidableEq, Repr

structure Pose where
  keypoints : List PoseKeypoint
  score : Option ℚ
  deriving DecidableEq, Repr

instance : Inhabited Pose := ⟨⟨[], none⟩⟩

/-- The skeleton connection table of App.tsx lines 747-767. -/
def poseConnections : List (String × String) :=
  [("nose", "left_eye"),
   ("nose", "right_eye"),
   ("left_eye", "left_ear"),
   ("right_eye", "right_ear"),
   ("left_shoulder", "right_shoulder"),
   ("left_shoulder", "left_elbow"),
   ("right_shoulder", "right_elbow"),
   ("left_elbow", "left_wrist"),
   ("right_elbow", "right_wrist"),
   ("left_shoulder", "left_hip"),
   ("right_shoulder", "right_hip"),
   ("left_hip", "right_hip"),
   ("left_hip", "left_knee"),
   ("right_hip", "right_knee"),
   ("left_knee", "left_ankle"),
   ("right_knee", "right_ankle")]

/-- The fixed per-subject palette of App.tsx lines 770-776. -/
def poseColors : List (String × String) :=
  [("lime", "aqua"),
   ("magenta", "yellow"),
   ("orange", "red"),
   ("cyan", "blue"),
   ("white", "green")]

/-- `Math.abs` on the embedded numbers. -/
def jsAbs (q : ℚ) : ℚ := if q < 0 then -q else q

/-- JS truthiness of an optional score (`keypoint.score && ...`):
`undefined` and 0 are falsy. -/
def scoreTruthy : Option ℚ → Bool
  | none => false
  | some v => v != 0

/-- The JS comparison `score > t` (false when the score is undefined). -/
def scoreAbove (s : Option ℚ) (t : ℚ) : Bool :=
  match s with
  | none => false
  | some v => v > t

/-- `keypoints.find(kp => kp.name === n)`. -/
def findKpByName (kps : List PoseKeypoint) (n : String) : Option PoseKeypoint :=
  kps.find? (fun kp => kp.name == some n)

/-- App.tsx lines 828-834: the guard under which a skeleton line is
stroked for the connection `(nA, nB)` of one pose: both endpoints found
by name, both scores truthy, both scores above 0.3. -/
def poseLineDrawn (kps : List PoseKeypoint) (nA nB : String) : Bool :=
  match findKpByName kps nA, findKpByName kps nB with
  | some f, some t =>
      scoreTruthy f.score && scoreTruthy t.score &&
        scoreAbove f.score 0.3 && scoreAbove t.score 0.3
  | _, _ => false

/-- App.tsx line 845: `Math.round((pose.score || 0) * 100) / 100`. -/
def poseDisplayScore (p : Pose) : ℚ :=
  ((round ((match p.score with | none => 0 | some v => if v == 0 then 0 else v) * 100) : ℤ) : ℚ) / 100

/-- The marks painted for the pose with loop index `i` (App.tsx lines
808-847): keypoint dots gated on score > 0.3, skeleton lines gated by
`poseLineDrawn`, then the per-subject score text. -/
def poseSubjectMarks (i : Nat) (p : Pose) : List Mark :=
  let colorSet := poseColors.getD (i % poseColors.length) ("lime", "aqua")
  (p.keypoints.filterMap (fun kp =>
    if scoreTruthy kp.score && scoreAbove kp.score 0.3 then
      some (Mark.dot kp.x kp.y 6 colorSet.1)
    else none))
  ++ (poseConnections.filterMap (fun c =>
    match findKpByName p.keypoints c.1, findKpByName p.keypoints c.2 with
    | some f, some t =>
        if scoreTruthy f.score && scoreTruthy t.score &&
            scoreAbove f.score 0.3 && scoreAbove t.score 0.3 then
          some (Mark.line f.x f.y t.x t.y colorSet.2 3)
        else none
    | _, _ => none))
  ++ [Mark.text ("ID " ++ toString (i + 1) ++ " 信頼度: " ++ toString (poseDisplayScore p))
        20 (60 + (i : ℚ) * 25) colorSet.1 "16px Arial"]

/-- The marks of one pose render (App.tsx lines 800-848): the
people-count header, then every detected pose in order -- the loop runs
over the whole `poses` array, with colors cycling modulo 5. -/
def poseRenderMarks (poses : List Pose) : List Mark :=
  Mark.text ("検出された人数: " ++ toString poses.length ++ "人") 20 30 "white" "16px Arial"
    :: (List.range poses.length).flatMap (fun i => poseSubjectMarks i (poses.getD i default))

/-- One pose render as canvas operations: the full-surface clear of line
800 followed by the marks. -/
def poseRenderOps (w h : ℚ) (poses : List Pose) : List CanvasOp :=
  CanvasOp.clear w h :: (poseRenderMarks poses).map CanvasOp.mark

/-! Hand detection (App.tsx lines 157-292). -/

structure HandKeypoint where
  x : ℚ
  y : ℚ
  deriving DecidableEq, Repr

structure Hand where
  keypoints : List HandKeypoint
  handedness : String
  deriving DecidableEq, Repr

/-- The landmark connection table of App.tsx lines 197-210; the pair
(0, 5) appears twice in the source (index finger and palm groups). -/
def handConnections : List (Nat × Nat) :=
  [(0, 1), (1, 2), (2, 3), (3, 4),
   (0, 5), (5, 6), (6, 7), (7, 8),
   (0, 9), (9, 10), (10, 11), (11, 12),
   (0, 13), (13, 14), (14, 15), (15, 16),
   (0, 17), (17, 18), (18, 19), (19, 20),
   (0, 5), (5, 9), (9, 13), (13, 17), (0, 17)]

/-- The marks painted for the detected hands (App.tsx lines 239-279):
every keypoint as an aqua dot, every connection whose both endpoint
indices exist as a yellow line, and the handedness label near the wrist
(keypoint 0) when it exists. -/
def handMarks (hands : List Hand) : List Mark :=
  hands.flatMap (fun hand =>
    (hand.keypoints.map (fun kp => Mark.dot kp.x kp.y 5 "aqua"))
    ++ (handConnections.filterMap (fun c =>
        match hand.keypoints.get? c.1, hand.keypoints.get? c.2 with
        | some s, some t => some (Mark.line s.x s.y t.x t.y "yellow" 2)
        | _, _ => none))
    ++ (match hand.keypoints.get? 0 with
        | some wrist =>
            [Mark.text (hand.handedness ++ " Hand") (wrist.x - 20) (wrist.y - 10)
              "white" "16px Arial"]
        | none => []))

/-- The continuation of `useHandpose`'s `detect` after `estimateHands`
resolves (App.tsx lines 232-279): it returns without touching the canvas
when the captured canvas ref is null, and otherwise clears the full
surface and paints the hand marks.  `canvas` holds the canvas element's
current width and height. -/
def handRenderOps (canvas : Option (ℚ × ℚ)) (hands : List Hand) : List CanvasOp :=
  match canvas with
  | none => []
  | some c => CanvasOp.clear c.1 c.2 :: (handMarks hands).map CanvasOp.mark

/-! The tab-switch scenario (App.tsx lines 863-891 with lines 285-287).
`App` owns one video and one canvas element, both rendered
unconditionally; the hooks of the inactive tabs receive fresh
`(current: null)` ref objects, which makes the active hook's effect
re-run on a switch and its cleanup clear the interval.  A `detect` call
already awaiting `estimateHands` is not cancelled: its closure captured
the App-owned refs, whose `current` still points at the mounted
elements, so its continuation runs `handRenderOps` with the live canvas
when it resolves. -/

structure SwitchState where
  /-- The previously active hand hook's interval timer is installed. -/
  intervalActive : Bool
  /-- Unresolved `estimateHands` calls issued by that hook. -/
  pending : Nat
  /-- Current width and height of the App-owned, always-mounted canvas. -/
  canvasW : ℚ
  canvasH : ℚ
  /-- Canvas contents (marks since the last full clear). -/
  marks : List Mark
  deriving DecidableEq, Repr

inductive SwitchEvent where
  /-- A firing of the hand hook's 100 ms timer with the given environment. -/
  | tick (e : TickEnv)
  /-- The user activates another tab: the effect cleanup clears the
  interval; nothing aborts or marks stale a pending estimate call. -/
  | switchTab
  /-- A pending `estimateHands` call resolves with `hands`; its
  continuation paints through the captured, still-mounted canvas. -/
  | resolve (hands : List Hand)

def switchStep (s : SwitchState) : SwitchEvent → SwitchState
  | .tick e =>
      if s.intervalActive && tickIssuesDetect .hand e then
        { s with pending := s.pending + 1 }
      else s
  | .switchTab => { s with intervalActive := false }
  | .resolve hands =>
      if s.pending > 0 then
        { s with
            pending := s.pending - 1,
            marks := applyOps (handRenderOps (some (s.canvasW, s.canvasH)) hands) s.marks }
      else s

/-! Face detection (App.tsx lines 294-708). -/

structure FaceKeypoint where
  x : ℚ
  y : ℚ
  name : Option String
  deriving DecidableEq, Repr

def defaultFaceKp : FaceKeypoint := ⟨0, 0, none⟩

structure Face where
  keypoints : List FaceKeypoint
  deriving DecidableEq, Repr

structure IrisResult where
  leftEye : String
  rightEye : String
  overall : String
  deriving DecidableEq, Repr

/-- The fixed result returned while an iris center is missing (App.tsx
lines 356-362), equal to the hook state's initial value. -/
def irisPlaceholder : IrisResult :=
  ⟨"検出中", "検出中", "虹彩を検出中..."⟩

/-- `detectIrisPosition` (App.tsx lines 337-426).  The guard of line 356
fires when `keypoints[468]` or `keypoints[473]` is undefined; only past
it are the eye widths/heights, the iris ratios and the direction
comparisons computed.  When both iris centers exist the list has length
at least 474, so every other landmark read (largest index 386) exists
and `getD` never falls back to its default. -/
def detectIrisPosition (kps : List FaceKeypoint) : IrisResult :=
  match kps.get? 468, kps.get? 473 with
  | some leftIrisCenter, some rightIrisCenter =>
      let leftEyeInner := kps.getD 133 defaultFaceKp
      let leftEyeOuter := kps.getD 33 defaultFaceKp
      let rightEyeInner := kps.getD 362 defaultFaceKp
      let rightEyeOuter := kps.getD 263 defaultFaceKp
      let leftEyeTop := kps.getD 159 defaultFaceKp
      let leftEyeBottom := kps.getD 145 defaultFaceKp
      let rightEyeTop := kps.getD 386 defaultFaceKp
      let rightEyeBottom := kps.getD 374 defaultFaceKp
      let leftEyeWidth := jsAbs (leftEyeOuter.x - leftEyeInner.x)
      let leftEyeHeight := jsAbs (leftEyeBottom.y - leftEyeTop.y)
      let leftIrisRelativeX := (leftIrisCenter.x - leftEyeInner.x) / leftEyeWidth
      let leftIrisRelativeY := (leftIrisCenter.y - leftEyeTop.y) / leftEyeHeight
      let rightEyeWidth := jsAbs (rightEyeOuter.x - rightEyeInner.x)
      let rightEyeHeight := jsAbs (rightEyeBottom.y - rightEyeTop.y)
      let rightIrisRelativeX := (rightIrisCenter.x - rightEyeInner.x) / rightEyeWidth
      let rightIrisRelativeY := (rightIrisCenter.y - rightEyeTop.y) / rightEyeHeight
      let leftDirX : String :=
        if leftIrisRelativeX < 0.35 then "外側"
        else if leftIrisRelativeX > 0.65 then "内側"
        else "中央"
      let leftDir : String :=
        if leftIrisRelativeY < 0.35 then
          (if leftDirX == "中央" then "上" else leftDirX ++ "・上")
        else if leftIrisRelativeY > 0.65 then
          (if leftDirX == "中央" then "下" else leftDirX ++ "・下")
        else leftDirX
      let rightDirX : String :=
        if rightIrisRelativeX < 0.35 then "内側"
        else if rightIrisRelativeX > 0.65 then "外側"
        else "中央"
      let rightDir : String :=
        if rightIrisRelativeY < 0.35 then
          (if rightDirX == "中央" then "上" else rightDirX ++ "・上")
        else if rightIrisRelativeY > 0.65 then
          (if rightDirX == "中央" then "下" else rightDirX ++ "・下")
        else rightDirX
      let avgX := (leftIrisRelativeX + rightIrisRelativeX) / 2
      let avgY := (leftIrisRelativeY + rightIrisRelativeY) / 2
      let overallX : String :=
        if avgX < 0.35 then "右"
        else if avgX > 0.65 then "左"
        else "正面"
      let overallDir : String :=
        if avgY < 0.35 then
          (if overallX == "正面" then "上" else overallX ++ "上")
        else if avgY > 0.65 then
          (if overallX == "正面" then "下" else overallX ++ "下")
        else overallX
      ⟨leftDir, rightDir, "視線: " ++ overallDir⟩
  | _, _ => irisPlaceholder

/-- `keypoints.find(kp => kp.name === nm) || keypoints[idx]`: the lookup
pattern of `detectEmotion` (App.tsx lines 432-449). -/
def lookupKp (kps : List FaceKeypoint) (nm : String) (idx : Nat) : Option FaceKeypoint :=
  (kps.find? (fun kp => kp.name == some nm)).orElse (fun _ => kps.get? idx)

/-- `mouthCenter.y` of App.tsx lines 452-455: the midpoint of the two
mouth corners. -/
def mouthCenterY (lmc rmc : FaceKeypoint) : ℚ :=
  (lmc.y + rmc.y) / 2

/-- `averageCornerHeight` of App.tsx lines 461-463: how far the mouth
corners sit above the corner midpoint. -/
def averageCornerHeight (lmc rmc : FaceKeypoint) : ℚ :=
  ((mouthCenterY lmc rmc - lmc.y) + (mouthCenterY lmc rmc - rmc.y)) / 2

/-- `averageCornerDropping` of App.tsx lines 466-468: how far the mouth
corners sit below the corner midpoint. -/
def averageCornerDropping (lmc rmc : FaceKeypoint) : ℚ :=
  ((lmc.y - mouthCenterY lmc rmc) + (rmc.y - mouthCenterY lmc rmc)) / 2

/-- The classification chain of `detectEmotion` (App.tsx lines 451-536),
on the twelve landmarks it dereferences. -/
def classifyEmotion (lmc rmc ult llb leT leB reT reB lbT rbT lbB rbB : FaceKeypoint) :
    String :=
  let mouthOpenness := jsAbs (ult.y - llb.y)
  let leftEyeOpenness := jsAbs (leT.y - leB.y)
  let rightEyeOpenness := jsAbs (reT.y - reB.y)
  let averageEyeOpenness := (leftEyeOpenness + rightEyeOpenness) / 2
  let eyebrowHeight := (lbT.y + rbT.y) / 2
  let eyesHeight := (leT.y + reT.y) / 2
  let eyebrowEyeDistance := eyesHeight - eyebrowHeight
  let eyebrowInnerDistance := jsAbs (lbB.x - rbB.x)
  let isLeftWink := leftEyeOpenness < rightEyeOpenness * 0.4
  let isRightWink := rightEyeOpenness < leftEyeOpenness * 0.4
  if eyebrowEyeDistance > 15 ∧ mouthOpenness > 15 ∧ averageCornerHeight lmc rmc > 8 then
    "大喜び 🤩"
  else if averageCornerHeight lmc rmc > 5 ∧ mouthOpenness > 3 then
    "笑顔 😊"
  else if isLeftWink ∧ ¬ isRightWink then
    "左ウインク 😉"
  else if isRightWink ∧ ¬ isLeftWink then
    "右ウインク 😉"
  else if averageEyeOpenness > 15 ∧ mouthOpenness > 10 ∧ eyebrowEyeDistance > 12 then
    "驚き 😲"
  else if averageCornerDropping lmc rmc > 5 ∧ averageEyeOpenness < 10 then
    "悲しみ 😢"
  else if eyebrowInnerDistance < 60 ∧ mouthOpenness > 5 then
    "怒り 😠"
  else if averageEyeOpenness < 7 then
    "眠い 😴"
  else if eyebrowEyeDistance > 10 ∧ mouthOpenness > 3 ∧ mouthOpenness < 10 then
    "困惑 🤔"
  else if mouthOpenness < 5 ∧ jsAbs (averageCornerHeight lmc rmc) < 3 then
    "真面目 😐"
  else
    "中立 😶"

/-- `detectEmotion` (App.tsx lines 429-537).  Each landmark is looked up
by name with an index fallback; every one of the twelve is dereferenced
in the measurements of lines 452-485 before any branch returns, so a
missing landmark throws -- embedded as `none`. -/
def detectEmotion (kps : List FaceKeypoint) : Option String :=
  match lookupKp kps "leftMouthCorner" 61, lookupKp kps "rightMouthCorner" 291,
      lookupKp kps "upperLipTop" 13, lookupKp kps "lowerLipBottom" 14,
      lookupKp kps "leftEyeTop" 159, lookupKp kps "leftEyeBottom" 145,
      lookupKp kps "rightEyeTop" 386, lookupKp kps "rightEyeBottom" 374,
      lookupKp kps "leftEyebrowTop" 66, lookupKp kps "rightEyebrowTop" 296,
      lookupKp kps "leftEyebrowBottom" 65, lookupKp kps "rightEyebrowBottom" 295 with
  | some lmc, some rmc, some ult, some llb, some leT, some leB, some reT, some reB,
      some lbT, some rbT, some lbB, some rbB =>
      some (classifyEmotion lmc rmc ult llb leT leB reT reB lbT rbT lbB rbB)
  | _, _, _, _, _, _, _, _, _, _, _, _ => none

/-- The landmark dot of App.tsx lines 579-597: iris landmarks (468-477)
yellow radius 3, the eight eye landmarks cyan radius 2, everything else
red radius 1. -/
def faceDotMark (j : Nat) (kp : FaceKeypoint) : Mark :=
  if 468 ≤ j ∧ j ≤ 477 then Mark.dot kp.x kp.y 3 "yellow"
  else if j ∈ [33, 133, 159, 145, 263, 362, 386, 374] then Mark.dot kp.x kp.y 2 "cyan"
  else Mark.dot kp.x kp.y 1 "red"

/-- `faceTop`/`faceCenter` of App.tsx lines 600-621: forehead landmark
first (name, then index 10), the eye landmarks as fallback, the defaults
(50, width/2) otherwise, and `faceTop` floored at 30. -/
def faceTopCenter (w : ℚ) (kps : List FaceKeypoint) : ℚ × ℚ :=
  let foreheadPoint :=
    (kps.find? (fun kp => kp.name == some "foreheadMid")).orElse (fun _ => kps.get? 10)
  let raw : ℚ × ℚ :=
    match foreheadPoint with
    | some fp => (fp.y - 40, fp.x)
    | none =>
        match (kps.find? (fun kp => kp.name == some "leftEye")).orElse (fun _ => kps.get? 159),
            (kps.find? (fun kp => kp.name == some "rightEye")).orElse (fun _ => kps.get? 386) with
        | some le, some re => (min le.y re.y - 50, (le.x + re.x) / 2)
        | _, _ => (50, w / 2)
  (max 30 raw.1, raw.2)

/-- The marks painted for one detected face (App.tsx lines 564-669): the
landmark dots, then the emotion, iris and per-eye detail texts, each
stroked in black then filled.  The texts show the hook's *state* values
(the `emotion` string and `IrisResult` captured by the effect closure),
not the values just computed from this face; `measure` stands for
`ctx.measureText(s).width`. -/
def faceSubjectMarks (w : ℚ) (measure : String → ℚ) (emotion : String)
    (iris : IrisResult) (f : Face) : List Mark :=
  let kps := f.keypoints
  ((List.range kps.length).map (fun j => faceDotMark j (kps.getD j defaultFaceKp)))
  ++ (let tc := faceTopCenter w kps
      let emotionX := tc.2 - measure emotion / 2
      let irisText := iris.overall
      let irisX := tc.2 - measure irisText / 2
      let irisY := tc.1 + 30
      let detailText := "左目: " ++ iris.leftEye ++ " | 右目: " ++ iris.rightEye
      let detailX := tc.2 - measure detailText / 2
      let detailY := irisY + 20
      [Mark.outlineText emotion emotionX tc.1 "black" 3 "bold 24px Arial",
       Mark.text emotion emotionX tc.1 "white" "bold 24px Arial",
       Mark.outlineText irisText irisX irisY "black" 3 "bold 20px Arial",
       Mark.text irisText irisX irisY "yellow" "bold 20px Arial",
       Mark.outlineText detailText detailX detailY "black" 2 "14px Arial",
       Mark.text detailText detailX detailY "white" "14px Arial"])

/-- The marks of one face render (App.tsx lines 564-693): every detected
face, and -- when zero faces were detected -- the no-face message of
lines 673-693, centred on the canvas.  The message text is the stale
`emotion` state value: line 674's `setEmotion` does not change the
`emotion` the closure already captured. -/
def faceRenderMarks (w h : ℚ) (measure : String → ℚ) (emotion : String)
    (iris : IrisResult) (faces : List Face) : List Mark :=
  (faces.flatMap (faceSubjectMarks w measure emotion iris))
  ++ (if faces.length == 0 then
        [Mark.outlineText emotion (w / 2 - measure emotion / 2) (h / 2)
           "black" 3 "bold 24px Arial",
         Mark.text emotion (w / 2 - measure emotion / 2) (h / 2)
           "white" "bold 24px Arial"]
      else [])

/-- One face render as canvas operations: the full-surface clear of line
562 followed by the marks. -/
def faceRenderOps (w h : ℚ) (measure : String → ℚ) (emotion : String)
    (iris : IrisResult) (faces : List Face) : List CanvasOp :=
  CanvasOp.clear w h :: (faceRenderMarks w h measure emotion iris faces).map CanvasOp.mark

/-! The video source (App.tsx lines 18-155): the effect body that runs
when a video file is selected while the element may still hold a camera
stream. -/

inductive VideoAction where
  /-- `track.stop()` on one track of the camera's MediaStream. -/
  | stopTrack (kind : String)
  /-- `setIsVideoReady(false)`. -/
  | resetReady
  /-- `URL.createObjectURL(videoFile)`. -/
  | createURL (file : String)
  /-- `videoRef.current.pause()`. -/
  | pauseVideo
  /-- `videoRef.current.removeAttribute('srcObject')`. -/
  | removeSrcObjectAttr
  /-- `videoRef.current.srcObject = null`. -/
  | clearSrcObject
  /-- `videoRef.current.src = fileURL`: the file becomes the element's
  source and decoding can begin. -/
  | setSrc (url : String)
  | setMuted (b : Bool)
  | setCrossOrigin (v : String)
  /-- `videoRef.current.load()`. -/
  | loadVideo
  /-- Assignment of the `onloadedmetadata` / `onended` / `onerror`
  handler. -/
  | installHandler (nm : String)
  /-- `setIsAllowed(true)`. -/
  | setAllowed
  deriving DecidableEq, Repr

/-- The abstract object URL `URL.createObjectURL` mints for a file. -/
def objectURL (file : String) : String := "blob:" ++ file

/-- The action sequence of the file-mode branch of `useVideo`'s effect
(App.tsx lines 27-87), given the kinds of the tracks of the camera
stream currently held in `srcObject` (`none` when no stream is held):
first every camera track is stopped (lines 31-37), then the readiness
reset, the object-URL creation and the element reset that assigns the
file URL as the source (lines 40-54), then the handler installations and
the allowed flag (lines 59-87). -/
def fileModeEffect (streamTracks : Option (List String)) (file : String) :
    List VideoAction :=
  (match streamTracks with
   | some ts => ts.map VideoAction.stopTrack
   | none => [])
  ++ [VideoAction.resetReady,
      VideoAction.createURL file,
      VideoAction.pauseVideo,
      VideoAction.removeSrcObjectAttr,
      VideoAction.clearSrcObject,
      VideoAction.setSrc (objectURL file),
      VideoAction.setMuted false,
      VideoAction.setCrossOrigin "anonymous",
      VideoAction.loadVideo,
      VideoAction.installHandler "loadedmetadata",
      VideoAction.installHandler "ended",
      VideoAction.installHandler "onerror",
      VideoAction.setAllowed]

/-! Concrete inputs used to evaluate the embedded definitions. -/

/-- An environment whose video width is 0 (metadata not yet decoded). -/
def zeroWidthEnv : TickEnv := { goodEnv with videoWidth := 0 }

/-- A detected hand with a single keypoint. -/
def oneHand : Hand := ⟨[⟨100, 100⟩], "Left"⟩

/-- The app just before a tab switch: the hand interval installed, one
`estimateHands` call awaiting, the mounted canvas at 640 x 480, the
canvas blank. -/
def switchScenarioStart : SwitchState :=
  ⟨true, 1, 640, 480, []⟩

/-- A detected pose with one confident nose keypoint. -/
def onePose : Pose := ⟨[⟨10, 20, some (1 / 2), some "nose"⟩], some (1 / 2)⟩

/-- Six detected poses -- one more than the five-entry color palette --
each with one confident nose keypoint at a distinct x coordinate. -/
def sixPoses : List Pose :=
  [⟨[⟨100, 50, some (1 / 2), some "nose"⟩], some 1⟩,
   ⟨[⟨101, 50, some (1 / 2), some "nose"⟩], some 1⟩,
   ⟨[⟨102, 50, some (1 / 2), some "nose"⟩], some 1⟩,
   ⟨[⟨103, 50, some (1 / 2), some "nose"⟩], some 1⟩,
   ⟨[⟨104, 50, some (1 / 2), some "nose"⟩], some 1⟩,
   ⟨[⟨105, 50, some (1 / 2), some "nose"⟩], some 1⟩]

/-- A face whose mouth corners sit well above the lip line (a raised,
smiling mouth in the intended reading) with the mouth open by 5; every
landmark `detectEmotion` reads is present by name. -/
def smileyFaceKps : List FaceKeypoint :=
  [⟨40, 90, some "leftMouthCorner"⟩,
   ⟨60, 90, some "rightMouthCorner"⟩,
   ⟨50, 95, some "upperLipTop"⟩,
   ⟨50, 100, some "lowerLipBottom"⟩,
   ⟨40, 50, some "leftEyeTop"⟩,
   ⟨40, 58, some "leftEyeBottom"⟩,
   ⟨60, 50, some "rightEyeTop"⟩,
   ⟨60, 58, some "rightEyeBottom"⟩,
   ⟨40, 40, some "leftEyebrowTop"⟩,
   ⟨60, 40, some "rightEyebrowTop"⟩,
   ⟨42, 45, some "leftEyebrowBottom"⟩,
   ⟨58, 45, some "rightEyebrowBottom"⟩]

/-! Theorems. -/

/-- Painting a clear followed by marks replaces the canvas contents with
exactly those marks, whatever was there before. -/
theorem foldl_applyOp_marks (ms acc : List Mark) :
    List.foldl applyOp acc (ms.map CanvasOp.mark) = acc ++ ms := by
  induction ms generalizing acc with
  | nil => simp [applyOps]
  | cons m rest ih => simp [applyOp, ih]

theorem applyOps_clear_marks (w h : ℚ) (ms s : List Mark) :
    applyOps (CanvasOp.clear w h :: ms.map CanvasOp.mark) s = ms := by
  simp [applyOps, applyOp, foldl_applyOp_marks]

/-- Claim C1: for every detection tick of any active detector variant, if
the previous tick's detect/estimate call has not yet resolved, no new
detect call is issued on that tick.  REFUTED: with the model loaded, the
refs live, the video ready and a 640 x 480 frame, a tick that starts
with one `estimateHands` call still unresolved issues a second one (the
source's `detect` never consults in-flight status), so the unresolved
count grows from 1 to 2. -/
theorem claim1_counterexample :
    tickStep Variant.hand goodEnv 1 = 2 ∧
      tickStep Variant.face goodEnv 1 = 2 ∧ tickStep Variant.pose goodEnv 1 = 2 := by
  decide

/-- Claim C1 as amended: a tick issues a new detect call exactly when its
environment guards pass (model loaded, live refs, video ready, nonzero
decoded dimensions), regardless of how many earlier calls are still
unresolved; in-flight status is never consulted, so there is no
at-most-one in-flight invariant. -/
theorem claim1_amended (v : Variant) (e : TickEnv) (n : ℕ) (_hn : 0 < n) :
    (tickIssuesDetect v e = true → tickStep v e n = n + 1) ∧
      (tickIssuesDetect v e = false → tickStep v e n = n) := by
  constructor <;> intro h <;> simp [tickStep, h]

theorem claim1_amended_witness :
    (tickIssuesDetect Variant.hand goodEnv = true →
        tickStep Variant.hand goodEnv 1 = 2) ∧
      (tickIssuesDetect Variant.hand goodEnv = false →
        tickStep Variant.hand goodEnv 1 = 1) :=
  claim1_amended Variant.hand goodEnv 1 (by decide)

/-- Claim C5: a tick whose video has a zero decoded width or height is a
no-op for all three variants: no estimate call is invoked and the canvas
is neither resized nor otherwise touched (the only canvas writes sit in
the continuation of an estimate call that is never issued). -/
theorem claim5_zero_size_tick_noop (e : TickEnv)
    (h : e.videoWidth = 0 ∨ e.videoHeight = 0) :
    handTickOutcome e = ⟨false, none⟩ ∧ faceTickOutcome e = ⟨false, none⟩ ∧
      poseTickOutcome e = ⟨false, none⟩ := by
  refine ⟨?_, ?_, ?_⟩ <;>
    · simp only [handTickOutcome, faceTickOutcome, poseTickOutcome]
      split_ifs <;> simp_all

theorem claim5_witness :
    handTickOutcome zeroWidthEnv = ⟨false, none⟩ ∧
      faceTickOutcome zeroWidthEnv = ⟨false, none⟩ ∧
      poseTickOutcome zeroWidthEnv = ⟨false, none⟩ :=
  claim5_zero_size_tick_noop zeroWidthEnv (Or.inl rfl)

/-- Claim C2: after a tab switch, no detection call issued by the
previously active variant's still-pending promise results in any drawing
on the canvas.  REFUTED: starting from a state with one `estimateHands`
call pending, switching tabs and then letting that call resolve with one
detected hand leaves the hand's keypoint dot (and its handedness label)
painted on the canvas -- the continuation's captured canvas ref still
points at the mounted canvas, and nothing marks the result stale. -/
theorem claim2_counterexample :
    Mark.dot 100 100 5 "aqua" ∈
        (switchStep (switchStep switchScenarioStart SwitchEvent.switchTab)
          (SwitchEvent.resolve [oneHand])).marks ∧
      (switchStep (switchStep switchScenarioStart SwitchEvent.switchTab)
          (SwitchEvent.resolve [oneHand])).marks ≠ [] := by
  decide

/-- Claim C2 as amended: switching tabs clears the interval, so no tick
fired after the switch issues a new call for the old variant; but a call
already in flight survives the switch and, on arrival, its result is
rendered onto the still-mounted canvas exactly as an active render would
be -- stale results are not discarded. -/
theorem claim2_amended (s : SwitchState) (hands : List Hand) (e : TickEnv)
    (hp : 0 < s.pending) :
    (switchStep s SwitchEvent.switchTab).pending = s.pending ∧
      switchStep (switchStep s SwitchEvent.switchTab) (SwitchEvent.tick e) =
        switchStep s SwitchEvent.switchTab ∧
      (switchStep (switchStep s SwitchEvent.switchTab)
          (SwitchEvent.resolve hands)).marks =
        applyOps (handRenderOps (some (s.canvasW, s.canvasH)) hands) s.marks := by
  refine ⟨rfl, ?_, ?_⟩
  · simp [switchStep]
  · simp [switchStep, hp]

theorem claim2_amended_witness :
    (switchStep (switchStep switchScenarioStart SwitchEvent.switchTab)
        (SwitchEvent.resolve [oneHand])).marks =
      applyOps
        (handRenderOps (some (switchScenarioStart.canvasW, switchScenarioStart.canvasH))
          [oneHand])
        switchScenarioStart.marks :=
  (claim2_amended switchScenarioStart [oneHand] goodEnv (by decide)).2.2

/-- Claim C3: for every detection-result set and every detector variant,
a render of that set followed by a render of the empty set leaves the
canvas empty.  REFUTED for the pose variant: the pose renderer paints
the people-count header even for zero results, so after rendering one
pose and then rendering the empty set the canvas holds the header text
(the face renderer likewise paints a no-face message; only the hand
variant leaves the canvas empty). -/
theorem claim3_counterexample :
    applyOps (poseRenderOps 640 480 [])
        (applyOps (poseRenderOps 640 480 [onePose]) []) =
      [Mark.text "検出された人数: 0人" 20 30 "white" "16px Arial"] ∧
      applyOps (poseRenderOps 640 480 [])
        (applyOps (poseRenderOps 640 480 [onePose]) []) ≠ [] := by
  decide

/-- Claim C3 as amended: every render of every variant first clears the
full surface, so the resulting canvas contents are exactly the render's
own marks, independent of anything previously painted (idempotent
snapshots, no accumulation); a render of zero results leaves the canvas
empty for the hand variant, while the pose variant leaves its
people-count header and the face variant its no-face message. -/
theorem claim3_amended (s : List Mark) (w h : ℚ) (hands : List Hand)
    (poses : List Pose) (measure : String → ℚ) (emotion : String)
    (iris : IrisResult) (faces : List Face) :
    applyOps (handRenderOps (some (w, h)) hands) s = handMarks hands ∧
      applyOps (faceRenderOps w h measure emotion iris faces) s =
        faceRenderMarks w h measure emotion iris faces ∧
      applyOps (poseRenderOps w h poses) s = poseRenderMarks poses ∧
      applyOps (handRenderOps (some (w, h)) []) s = [] ∧
      applyOps (poseRenderOps w h []) s ≠ [] ∧
      applyOps (faceRenderOps w h measure emotion iris []) s ≠ [] := by
  refine ⟨applyOps_clear_marks w h (handMarks hands) s,
    applyOps_clear_marks w h (faceRenderMarks w h measure emotion iris faces) s,
    applyOps_clear_marks w h (poseRenderMarks poses) s,
    applyOps_clear_marks w h [] s, ?_, ?_⟩
  · have h5 : applyOps (poseRenderOps w h []) s = poseRenderMarks [] :=
      applyOps_clear_marks w h (poseRenderMarks []) s
    rw [h5]
    simp [poseRenderMarks]
  · have h6 : applyOps (faceRenderOps w h measure emotion iris []) s =
        faceRenderMarks w h measure emotion iris [] :=
      applyOps_clear_marks w h (faceRenderMarks w h measure emotion iris []) s
    rw [h6]
    simp [faceRenderMarks]

/-- Claim C4: in the pose renderer, a skeleton line is drawn for a
connection exactly when both endpoint keypoints are found by name in the
pose's keypoint list and both carry a confidence score above 0.3. -/
theorem claim4_line_iff (kps : List PoseKeypoint) (nA nB : String) :
    poseLineDrawn kps nA nB = true ↔
      ((∃ f, findKpByName kps nA = some f ∧ ∃ sf, f.score = some sf ∧ sf > 0.3) ∧
       (∃ t, findKpByName kps nB = some t ∧ ∃ st, t.score = some st ∧ st > 0.3)) := by
  unfold poseLineDrawn
  cases hA : findKpByName kps nA <;> cases hB : findKpByName kps nB <;>
    simp [hA, hB]
  case some.some f t =>
    cases hf : f.score <;> cases ht : t.score <;>
      simp [scoreTruthy, scoreAbove, hf, ht]
    case some.some vf vt =>
      intro h4 h3
      exact ⟨ne_of_gt (lt_trans (by norm_num) h3),
        ne_of_gt (lt_trans (by norm_num) h4)⟩

/-- Claim C6: when a video file is selected while a camera stream is
held, every `track.stop()` precedes the assignment of the file's object
URL to the video element: no position in the effect's action sequence
holds a stop after the source assignment, so the camera hardware and the
file source are never held at once. -/
theorem claim6_tracks_stopped_before_src (ts : List String) (file : String)
    (i j : ℕ) (k u : String)
    (hi : (fileModeEffect (some ts) file).get? i = some (VideoAction.stopTrack k))
    (hj : (fileModeEffect (some ts) file).get? j = some (VideoAction.setSrc u)) :
    i < j := by
  have hspl : fileModeEffect (some ts) file
      = ts.map VideoAction.stopTrack ++
        [VideoAction.resetReady, VideoAction.createURL file, VideoAction.pauseVideo,
         VideoAction.removeSrcObjectAttr, VideoAction.clearSrcObject,
         VideoAction.setSrc (objectURL file), VideoAction.setMuted false,
         VideoAction.setCrossOrigin "anonymous", VideoAction.loadVideo,
         VideoAction.installHandler "loadedmetadata", VideoAction.installHandler "ended",
         VideoAction.installHandler "onerror", VideoAction.setAllowed] := rfl
  rw [hspl] at hi hj
  have hi_lt : i < ts.length := by
    by_contra hge
    push_neg at hge
    rw [List.get?_append_right (by simpa using hge)] at hi
    have hmem := List.get?_mem hi
    simp at hmem
  have hj_ge : ts.length ≤ j := by
    by_contra hlt
    push_neg at hlt
    rw [List.get?_append (by simpa using hlt), List.get?_map] at hj
    cases hts : ts.get? j <;> rw [hts] at hj <;> simp at hj
  exact lt_of_lt_of_le hi_lt hj_ge

theorem claim6_witness : (0 : ℕ) < 6 :=
  claim6_tracks_stopped_before_src ["video"] "a.mp4" 0 6 "video"
    (objectURL "a.mp4") rfl rfl

/-- Claim C7: a detection-result set with more subjects than the
configured maximum (pose: 5) has only the first five drawn and the rest
discarded.  REFUTED: with six detected poses the renderer paints the
sixth subject's score label too (loop index 5, colors cycling back to
the first palette entry) -- the pose loop runs over the whole result
array with no cap. -/
theorem claim7_counterexample :
    sixPoses.length > 5 ∧
      Mark.dot 105 50 6 "lime" ∈ poseRenderMarks sixPoses := by
  refine ⟨by decide, ?_⟩
  unfold poseRenderMarks
  refine List.mem_cons_of_mem _ ?_
  rw [List.mem_flatMap]
  refine ⟨5, by decide, ?_⟩
  unfold poseSubjectMarks
  refine List.mem_append_left _ (List.mem_append_left _ ?_)
  have hkp : (sixPoses.getD 5 default).keypoints
      = [⟨105, 50, some ((1 : ℚ) / 2), some "nose"⟩] := rfl
  rw [hkp]
  have hc : (scoreTruthy (some ((1 : ℚ) / 2)) &&
      scoreAbove (some ((1 : ℚ) / 2)) 0.3) = true := by
    simp only [scoreTruthy, scoreAbove, bne_iff_ne, ne_eq, Bool.and_eq_true,
      decide_eq_true_eq]
    norm_num
  simp only [List.filterMap_cons, List.filterMap_nil, hc]
  decide

/-- Claim C7 as amended: the pose renderer draws every result in the
list, whatever its length: for each index below the subject count, that
subject's score label (and with it its keypoints and skeleton) is
painted, the color palette cycling modulo its five entries; there is no
maximum-count discard. -/
theorem claim7_amended (poses : List Pose) (i : ℕ) (hi : i < poses.length) :
    Mark.text ("ID " ++ toString (i + 1) ++ " 信頼度: " ++
        toString (poseDisplayScore (poses.getD i default)))
      20 (60 + (i : ℚ) * 25)
      (poseColors.getD (i % poseColors.length) ("lime", "aqua")).1 "16px Arial"
      ∈ poseRenderMarks poses := by
  unfold poseRenderMarks
  refine List.mem_cons_of_mem _ ?_
  rw [List.mem_flatMap]
  refine ⟨i, List.mem_range.mpr hi, ?_⟩
  unfold poseSubjectMarks
  exact List.mem_append_right _ (List.mem_singleton.mpr rfl)

theorem claim7_amended_witness :
    Mark.text ("ID " ++ toString (5 + 1) ++ " 信頼度: " ++
        toString (poseDisplayScore (sixPoses.getD 5 default)))
      20 (60 + ((5 : ℕ) : ℚ) * 25)
      (poseColors.getD (5 % poseColors.length) ("lime", "aqua")).1 "16px Arial"
      ∈ poseRenderMarks sixPoses :=
  claim7_amended sixPoses 5 (by decide)

/-- The mouth center is the midpoint of the two mouth corners, so the
computed average corner raise is identically zero. -/
theorem averageCornerHeight_eq_zero (lmc rmc : FaceKeypoint) :
    averageCornerHeight lmc rmc = 0 := by
  unfold averageCornerHeight mouthCenterY
  ring

/-- Likewise the computed average corner dropping is identically zero. -/
theorem averageCornerDropping_eq_zero (lmc rmc : FaceKeypoint) :
    averageCornerDropping lmc rmc = 0 := by
  unfold averageCornerDropping mouthCenterY
  ring

/-- The three branches of the classification chain gated on a positive
average corner raise or dropping can never fire. -/
theorem classifyEmotion_corner_branches_dead
    (lmc rmc ult llb leT leB reT reB lbT rbT lbB rbB : FaceKeypoint) :
    classifyEmotion lmc rmc ult llb leT leB reT reB lbT rbT lbB rbB ≠ "大喜び 🤩" ∧
      classifyEmotion lmc rmc ult llb leT leB reT reB lbT rbT lbB rbB ≠ "笑顔 😊" ∧
      classifyEmotion lmc rmc ult llb leT leB reT reB lbT rbT lbB rbB ≠ "悲しみ 😢" := by
  have h8 : ¬ ((0 : ℚ) > 8) := by norm_num
  have h5 : ¬ ((0 : ℚ) > 5) := by norm_num
  have h3 : jsAbs 0 < 3 := by norm_num [jsAbs]
  simp only [classifyEmotion, averageCornerHeight_eq_zero, averageCornerDropping_eq_zero,
    h8, h5, h3, and_false, false_and, and_true, if_false, ite_false]
  split_ifs <;> decide

/-- Every defined value of `detectEmotion` is a value of the
classification chain. -/
theorem detectEmotion_classify (kps : List FaceKeypoint) (s : String)
    (h : detectEmotion kps = some s) :
    ∃ lmc rmc ult llb leT leB reT reB lbT rbT lbB rbB,
      s = classifyEmotion lmc rmc ult llb leT leB reT reB lbT rbT lbB rbB := by
  unfold detectEmotion at h
  split at h
  · exact ⟨_, _, _, _, _, _, _, _, _, _, _, _, (Option.some.inj h).symm⟩
  · exact absurd h (by simp)

/-- Claim C9: the computed average mouth-corner height and dropping are
exactly zero for every input (the mouth center being the corner
midpoint), so the big-joy, smile and sadness classifications are
unreachable for every keypoint list. -/
theorem claim9_corner_quantities_zero (lmc rmc : FaceKeypoint)
    (kps : List FaceKeypoint) :
    averageCornerHeight lmc rmc = 0 ∧ averageCornerDropping lmc rmc = 0 ∧
      detectEmotion kps ≠ some "大喜び 🤩" ∧ detectEmotion kps ≠ some "笑顔 😊" ∧
      detectEmotion kps ≠ some "悲しみ 😢" := by
  refine ⟨averageCornerHeight_eq_zero lmc rmc, averageCornerDropping_eq_zero lmc rmc,
    ?_, ?_, ?_⟩
  · intro h
    obtain ⟨a1, a2, a3, a4, a5, a6, a7, a8, a9, a10, a11, a12, heq⟩ :=
      detectEmotion_classify kps _ h
    exact (classifyEmotion_corner_branches_dead
      a1 a2 a3 a4 a5 a6 a7 a8 a9 a10 a11 a12).1 heq.symm
  · intro h
    obtain ⟨a1, a2, a3, a4, a5, a6, a7, a8, a9, a10, a11, a12, heq⟩ :=
      detectEmotion_classify kps _ h
    exact (classifyEmotion_corner_branches_dead
      a1 a2 a3 a4 a5 a6 a7 a8 a9 a10 a11 a12).2.1 heq.symm
  · intro h
    obtain ⟨a1, a2, a3, a4, a5, a6, a7, a8, a9, a10, a11, a12, heq⟩ :=
      detectEmotion_classify kps _ h
    exact (classifyEmotion_corner_branches_dead
      a1 a2 a3 a4 a5 a6 a7 a8 a9 a10 a11 a12).2.2 heq.symm

/-- Claim C8 (against the code as written): no keypoint list at all can
make `detectEmotion` return the smile classification -- the smile
branch's guard needs an average corner height above 5, which is
identically zero -- and in particular the concrete raised-corner,
open-mouth face `smileyFaceKps` classifies as neutral, not smile. -/
theorem claim8_smile_unreachable :
    (∀ kps : List FaceKeypoint, detectEmotion kps ≠ some "笑顔 😊") ∧
      detectEmotion smileyFaceKps = some "中立 😶" := by
  constructor
  · intro kps h
    obtain ⟨a1, a2, a3, a4, a5, a6, a7, a8, a9, a10, a11, a12, heq⟩ :=
      detectEmotion_classify kps _ h
    exact (classifyEmotion_corner_branches_dead
      a1 a2 a3 a4 a5 a6 a7 a8 a9 a10 a11 a12).2.1 heq.symm
  · have hred : detectEmotion smileyFaceKps =
        some (classifyEmotion ⟨40, 90, some "leftMouthCorner"⟩
          ⟨60, 90, some "rightMouthCorner"⟩ ⟨50, 95, some "upperLipTop"⟩
          ⟨50, 100, some "lowerLipBottom"⟩ ⟨40, 50, some "leftEyeTop"⟩
          ⟨40, 58, some "leftEyeBottom"⟩ ⟨60, 50, some "rightEyeTop"⟩
          ⟨60, 58, some "rightEyeBottom"⟩ ⟨40, 40, some "leftEyebrowTop"⟩
          ⟨60, 40, some "rightEyebrowTop"⟩ ⟨42, 45, some "leftEyebrowBottom"⟩
          ⟨58, 45, some "rightEyebrowBottom"⟩) := rfl
    rw [hred]
    norm_num [classifyEmotion, jsAbs, averageCornerHeight, averageCornerDropping,
      mouthCenterY]

/-- Claim C10: when the left iris center (index 468) or the right iris
center (index 473) is absent, `detectIrisPosition` returns the fixed
placeholder result; the ratio and direction computations sit entirely in
the other branch and are never performed. -/
theorem claim10_missing_iris_placeholder (kps : List FaceKeypoint)
    (h : kps.get? 468 = none ∨ kps.get? 473 = none) :
    detectIrisPosition kps = irisPlaceholder := by
  unfold detectIrisPosition
  cases h468 : kps.get? 468 with
  | none =>
      cases h473 : kps.get? 473 with
      | none => rfl
      | some ri => rfl
  | some li =>
      cases h473 : kps.get? 473 with
      | none => rfl
      | some ri =>
          rcases h with h | h
          · rw [h468] at h
            exact Option.noConfusion h
          · rw [h473] at h
            exact Option.noConfusion h

theorem claim10_witness : detectIrisPosition [] = irisPlaceholder :=
  claim10_missing_iris_placeholder [] (Or.inl rfl)

end ReactHandpose
